import Mathlib

/-
Verification of the attendance-session server (`src/server.js`).

The four MongoDB collections (`students`, `courses`, `attendance_sessions`,
`attendances`) are embedded as Lean lists inside a `Store`; every HTTP handler
becomes a pure function from a store (plus its request parameters and the
current clock value) to a response together with the updated store.
Timestamps are modelled as natural numbers (milliseconds since the epoch),
so `new Date(d).setHours(0,0,0,0)` becomes truncation to a whole number of
days.  Mongo's `updateOne` updates the first matching document, `updateMany`
updates all of them, and an `updateOne` with no match leaves the collection
untouched; the helpers below mirror exactly that.
-/

set_option autoImplicit false

namespace AttendanceServer

/-- Milliseconds per day; used to strip the time-of-day from a timestamp. -/
def msPerDay : Nat := 86400000

/-- `sessionDate.setHours(0, 0, 0, 0)`: round a timestamp down to midnight. -/
def normalizeDate (t : Nat) : Nat := t - t % msPerDay

/-- A document of the `students` collection. -/
structure Student where
  npm : String
  name : String
deriving Repr, DecidableEq

/-- A document of the `courses` collection. -/
structure Course where
  courseCode : String
  courseName : String
  lecturerName : String
deriving Repr, DecidableEq

/-- A document of the `attendance_sessions` collection. -/
structure Session where
  id : Nat
  courseCode : String
  courseName : String
  lecturerName : String
  date : Nat
  createdAt : Nat
  status : String
  closedAt : Option Nat
deriving Repr, DecidableEq

/-- A document of the `attendances` collection. -/
structure AttendanceRecord where
  id : Nat
  sessionId : Nat
  courseCode : String
  courseName : String
  npm : String
  studentName : String
  status : String
  checkInTime : Option Nat
  confidence : Option Int
  recognitionMethod : Option String
  notes : Option String
  attachmentPath : Option String
  createdAt : Nat
  updatedAt : Nat
deriving Repr, DecidableEq

/-- The whole database.  `nextSessionId` / `nextRecordId` supply the `_id`
values Mongo would generate on insertion. -/
structure Store where
  students : List Student
  courses : List Course
  sessions : List Session
  attendances : List AttendanceRecord
  nextSessionId : Nat
  nextRecordId : Nat
deriving Repr, DecidableEq

/-- Mongo `updateOne`: apply `f` to the first element satisfying `p`, leave
everything else (and a match-free list) unchanged. -/
def updateFirst {α : Type} (p : α → Bool) (f : α → α) : List α → List α
  | [] => []
  | x :: xs => if p x then f x :: xs else x :: updateFirst p f xs

theorem updateFirst_of_forall_not {α : Type} (p : α → Bool) (f : α → α)
    (l : List α) (h : ∀ a ∈ l, p a = false) : updateFirst p f l = l := by
  induction l with
  | nil => rfl
  | cons x xs ih =>
    have hx := h x (List.mem_cons_self x xs)
    simp [updateFirst, hx]
    exact ih fun a ha => h a (List.mem_cons_of_mem x ha)

theorem find?_updateFirst {α : Type} (p : α → Bool) (f : α → α)
    (l : List α) (a : α) (hf : ∀ b, p b = true → p (f b) = true)
    (h : l.find? p = some a) : (updateFirst p f l).find? p = some (f a) := by
  induction l with
  | nil => simp at h
  | cons x xs ih =>
    by_cases hx : p x = true
    · have hxa : x = a := by
        rw [List.find?_cons_of_pos _ hx] at h
        exact Option.some.inj h
      subst hxa
      simp [updateFirst, hx, List.find?_cons_of_pos _ (hf x hx)]
    · have hx' : p x = false := by simpa using hx
      rw [List.find?_cons_of_neg _ (by simp [hx'])] at h
      simp only [updateFirst, hx', Bool.false_eq_true, if_false]
      rw [List.find?_cons_of_neg _ (by simp [hx'])]
      exact ih h

theorem any_of_find?_eq_some {α : Type} (p : α → Bool) (l : List α) (a : α)
    (h : l.find? p = some a) : l.any p = true :=
  List.any_eq_true.mpr ⟨a, List.mem_of_find?_eq_some h, List.find?_some h⟩

/-! ## `POST /api/sessions/create` -/

/-- The possible responses of the session-creation endpoint. -/
inductive CreateRes where
  | notFound
  | conflict (sessionId : Nat)
  | created (sessionId : Nat) (totalStudents : Nat)
deriving Repr, DecidableEq

/-- The HTTP status the handler attaches to each response
(`res.status(404)` only on the unknown-course path; the duplicate-session
response goes out through a plain `res.json`, i.e. 200). -/
def CreateRes.httpStatus : CreateRes → Nat
  | .notFound => 404
  | .conflict _ => 200
  | .created _ _ => 200

/-- The `success` field of the JSON envelope of each response. -/
def CreateRes.success : CreateRes → Bool
  | .notFound => false
  | .conflict _ => false
  | .created _ _ => true

/-- `students.map(student => ({...}))` followed by `insertMany`: one fresh
attendance record per student, in roster order, with sequential ids. -/
def seedRecords (sessionId : Nat) (courseCode courseName : String) (now : Nat) :
    Nat → List Student → List AttendanceRecord
  | _, [] => []
  | baseId, stu :: rest =>
    { id := baseId
      sessionId := sessionId
      courseCode := courseCode
      courseName := courseName
      npm := stu.npm
      studentName := stu.name
      status := "Belum Absen"
      checkInTime := none
      confidence := none
      recognitionMethod := none
      notes := none
      attachmentPath := none
      createdAt := now
      updatedAt := now } :: seedRecords sessionId courseCode courseName now (baseId + 1) rest

/-- Handler of `POST /api/sessions/create`. -/
def createSession (db : Store) (courseCode : String) (date now : Nat) :
    CreateRes × Store :=
  match db.courses.find? (fun c => c.courseCode == courseCode) with
  | none => (.notFound, db)
  | some course =>
    let sessionDate := normalizeDate date
    match db.sessions.find? (fun s => s.courseCode == courseCode && s.date == sessionDate) with
    | some existingSession => (.conflict existingSession.id, db)
    | none =>
      let sessionId := db.nextSessionId
      let sess : Session :=
        { id := sessionId
          courseCode := courseCode
          courseName := course.courseName
          lecturerName := course.lecturerName
          date := sessionDate
          createdAt := now
          status := "active"
          closedAt := none }
      let recs := seedRecords sessionId courseCode course.courseName now db.nextRecordId db.students
      (.created sessionId db.students.length,
       { db with
           sessions := db.sessions ++ [sess]
           attendances := db.attendances ++ recs
           nextSessionId := sessionId + 1
           nextRecordId := db.nextRecordId + db.students.length })

theorem seedRecords_map_npm (sessionId : Nat) (courseCode courseName : String)
    (now : Nat) (baseId : Nat) (students : List Student) :
    (seedRecords sessionId courseCode courseName now baseId students).map
        (fun r => r.npm) =
      students.map (fun stu => stu.npm) := by
  induction students generalizing baseId with
  | nil => rfl
  | cons stu rest ih => simp [seedRecords, ih]

theorem seedRecords_fields (sessionId : Nat) (courseCode courseName : String)
    (now : Nat) (baseId : Nat) (students : List Student) :
    ∀ r ∈ seedRecords sessionId courseCode courseName now baseId students,
      r.status = "Belum Absen" ∧ r.sessionId = sessionId := by
  induction students generalizing baseId with
  | nil => intro r hr; simp [seedRecords] at hr
  | cons stu rest ih =>
    intro r hr
    rcases (List.mem_cons).mp hr with h | h
    · subst h; exact ⟨rfl, rfl⟩
    · exact ih (baseId + 1) r h

/-! ## `PUT /api/sessions/:sessionId/close` -/

/-- The bulk update applied to the `attendances` collection when a session is
closed: every record of the session still in `Belum Absen` becomes `Alpha`. -/
def closeRecord (sessionId now : Nat) (r : AttendanceRecord) : AttendanceRecord :=
  if r.sessionId == sessionId && r.status == "Belum Absen"
  then { r with status := "Alpha", updatedAt := now }
  else r

/-- Handler of `PUT /api/sessions/:sessionId/close`.  It performs the
`updateMany` on the attendances, then an `updateOne` on the session, and
unconditionally answers `success: true`. -/
def closeSession (db : Store) (sessionId now : Nat) : Bool × Store :=
  let attendances := db.attendances.map (closeRecord sessionId now)
  let sessions := updateFirst (fun s => s.id == sessionId)
    (fun s => { s with status := "closed", closedAt := some now }) db.sessions
  (true, { db with sessions := sessions, attendances := attendances })

/-! ## `POST /api/attendances/mark-present` -/

inductive MarkRes where
  | notFound
  | ok (attendance : AttendanceRecord)
deriving Repr, DecidableEq

def MarkRes.httpStatus : MarkRes → Nat
  | .notFound => 404
  | .ok _ => 200

/-- The `$set` document of the recognition-driven `updateOne`. -/
def markPresentUpdate (confidence : Option Int) (now : Nat)
    (r : AttendanceRecord) : AttendanceRecord :=
  { r with
      status := "Hadir"
      checkInTime := some now
      confidence := confidence
      recognitionMethod := some "Face Recognition"
      updatedAt := now }

/-- Handler of `POST /api/attendances/mark-present`: `updateOne` on
`(sessionId, npm)`, 404 when `matchedCount` is 0, otherwise `findOne` the
updated record and return it. -/
def markPresent (db : Store) (sessionId : Nat) (npm : String)
    (confidence : Option Int) (now : Nat) : MarkRes × Store :=
  let p := fun (r : AttendanceRecord) => r.sessionId == sessionId && r.npm == npm
  let attendances := updateFirst p (markPresentUpdate confidence now) db.attendances
  let db2 : Store := { db with attendances := attendances }
  if db.attendances.any p then
    match attendances.find? p with
    | some a => (.ok a, db2)
    | none => (.notFound, db2)
  else (.notFound, db2)

/-! ## `PUT /api/attendances/:id/status` -/

inductive UpdateRes where
  | invalidArgument
  | notFound
  | ok (attendance : AttendanceRecord)
deriving Repr, DecidableEq

def UpdateRes.httpStatus : UpdateRes → Nat
  | .invalidArgument => 400
  | .notFound => 404
  | .ok _ => 200

/-- `validStatuses` of the manual-update handler. -/
def validStatuses : List String := ["Hadir", "Izin", "Sakit", "Alpha", "Belum Absen"]

/-- The `$set` document of the manual status update: status and `updatedAt`
always, `notes` only when supplied and truthy, and `attachmentPath := null`
whenever the new status is neither `Izin` nor `Sakit`. -/
def applyStatusUpdate (status : String) (notes : Option String) (now : Nat)
    (r : AttendanceRecord) : AttendanceRecord :=
  let r1 := { r with status := status, updatedAt := now }
  let r2 := match notes with
    | some s => if s == "" then r1 else { r1 with notes := some s }
    | none => r1
  if status == "Izin" || status == "Sakit" then r2
  else { r2 with attachmentPath := none }

/-- Handler of `PUT /api/attendances/:id/status`: reject a status outside the
five-value enum with 400, else `updateOne` by `_id` (404 when nothing
matched) and return the updated record. -/
def updateStatusManually (db : Store) (recordId : Nat) (status : String)
    (notes : Option String) (now : Nat) : UpdateRes × Store :=
  if validStatuses.contains status then
    let p := fun (r : AttendanceRecord) => r.id == recordId
    let attendances := updateFirst p (applyStatusUpdate status notes now) db.attendances
    let db2 : Store := { db with attendances := attendances }
    if db.attendances.any p then
      match attendances.find? p with
      | some a => (.ok a, db2)
      | none => (.notFound, db2)
    else (.notFound, db2)
  else (.invalidArgument, db)

/-! ## Statistics -/

/-- The per-session statistics block of
`GET /api/sessions/:sessionId/attendances`. -/
structure Stats where
  total : Nat
  hadir : Nat
  izin : Nat
  sakit : Nat
  alpha : Nat
  belumAbsen : Nat
deriving Repr, DecidableEq

/-- The statistics computation: total count plus one `filter(...).length`
per status value. -/
def sessionStats (records : List AttendanceRecord) : Stats :=
  { total := records.length
    hadir := (records.filter (fun a => a.status == "Hadir")).length
    izin := (records.filter (fun a => a.status == "Izin")).length
    sakit := (records.filter (fun a => a.status == "Sakit")).length
    alpha := (records.filter (fun a => a.status == "Alpha")).length
    belumAbsen := (records.filter (fun a => a.status == "Belum Absen")).length }

/-- The data block of `GET /api/stats`. -/
structure SystemStats where
  totalStudents : Nat
  presentToday : Nat
  totalCourses : Nat
  attendanceRate : Int
deriving Repr, DecidableEq

/-- `Math.round` on an exact rational, as JavaScript computes it for the
non-negative values that arise here. -/
def jsRound (q : ℚ) : Int := ⌊q + 1 / 2⌋

/-- The `distinct("npm", {status: "Hadir", checkInTime: {$gte: today}})`
query: npms of the matching records, deduplicated.  Note the filter has no
upper bound on `checkInTime`. -/
def presentTodayList (db : Store) (now : Nat) : List String :=
  ((db.attendances.filter (fun a =>
      a.status == "Hadir" &&
        a.checkInTime.any (fun t => normalizeDate now ≤ t))).map
    (fun a => a.npm)).dedup

/-- Handler of `GET /api/stats`. -/
def systemStats (db : Store) (now : Nat) : SystemStats :=
  let totalStudents := db.students.length
  let present := (presentTodayList db now).length
  { totalStudents := totalStudents
    presentToday := present
    totalCourses := db.courses.length
    attendanceRate :=
      if 0 < totalStudents
      then jsRound ((present : ℚ) / (totalStudents : ℚ) * 100)
      else 0 }

/-- Modelled from the spec: "distinct student ids with status=`Hadir` and
checkInTime within the current day window [midnight, now)". -/
def specPresentToday_upToNow (db : Store) (now : Nat) : Nat :=
  (((db.attendances.filter (fun a =>
      a.status == "Hadir" &&
        a.checkInTime.any (fun t => normalizeDate now ≤ t && t < now))).map
    (fun a => a.npm)).toFinset).card

/-- Modelled from the spec: "distinct student ids with status=`Hadir` and
checkInTime within [midnight-today, midnight-tomorrow)". -/
def specPresentToday_fullDay (db : Store) (now : Nat) : Nat :=
  (((db.attendances.filter (fun a =>
      a.status == "Hadir" &&
        a.checkInTime.any
          (fun t => normalizeDate now ≤ t && t < normalizeDate now + msPerDay))).map
    (fun a => a.npm)).toFinset).card

/-- The day window the code actually uses: distinct student ids with
status `Hadir` and checkInTime at or after today's midnight, with no upper
bound. -/
def specPresentToday_fromMidnight (db : Store) (now : Nat) : Nat :=
  (((db.attendances.filter (fun a =>
      a.status == "Hadir" &&
        a.checkInTime.any (fun t => normalizeDate now ≤ t))).map
    (fun a => a.npm)).toFinset).card

/-! ## Concrete data used by witnesses and counterexamples -/

def stuA : Student := { npm := "101", name := "Ana" }

def stuB : Student := { npm := "102", name := "Budi" }

def course1 : Course :=
  { courseCode := "CS101", courseName := "Algoritma", lecturerName := "Dr. X" }

/-- Two students, one course, no session yet. -/
def demoStore : Store :=
  { students := [stuA, stuB]
    courses := [course1]
    sessions := []
    attendances := []
    nextSessionId := 1
    nextRecordId := 10 }

/-- An already-existing active session for `CS101` on day 0. -/
def sess1 : Session :=
  { id := 1
    courseCode := "CS101"
    courseName := "Algoritma"
    lecturerName := "Dr. X"
    date := 0
    createdAt := 3
    status := "active"
    closedAt := none }

/-- `demoStore` after a session for `CS101`, day 0, already exists. -/
def conflictStore : Store :=
  { demoStore with sessions := [sess1], nextSessionId := 2 }

/-- A seeded, unmarked record of session 1 carrying an attachment. -/
def recA : AttendanceRecord :=
  { id := 1
    sessionId := 1
    courseCode := "CS101"
    courseName := "Algoritma"
    npm := "101"
    studentName := "Ana"
    status := "Belum Absen"
    checkInTime := none
    confidence := none
    recognitionMethod := none
    notes := none
    attachmentPath := some "/uploads/1-1.pdf"
    createdAt := 4
    updatedAt := 4 }

/-- A record of session 1 already marked `Hadir`. -/
def recB : AttendanceRecord :=
  { id := 2
    sessionId := 1
    courseCode := "CS101"
    courseName := "Algoritma"
    npm := "102"
    studentName := "Budi"
    status := "Hadir"
    checkInTime := some 5
    confidence := some 97
    recognitionMethod := some "Face Recognition"
    notes := none
    attachmentPath := none
    createdAt := 4
    updatedAt := 5 }

/-- A store whose session 1 holds the two records above. -/
def recStore : Store :=
  { demoStore with
      sessions := [sess1]
      attendances := [recA, recB]
      nextSessionId := 2
      nextRecordId := 3 }

/-- One student, and one `Hadir` record whose check-in timestamp lies on the
next day (after tomorrow's midnight): the code still counts it. -/
def cxStore : Store :=
  { students := [stuA]
    courses := []
    sessions := []
    attendances := [{ recB with npm := "101", checkInTime := some 86400001 }]
    nextSessionId := 1
    nextRecordId := 1 }

/-- Empty roster, for the division-by-zero guard. -/
def emptyStore : Store :=
  { students := []
    courses := []
    sessions := []
    attendances := []
    nextSessionId := 1
    nextRecordId := 1 }

/-- A record whose status lies outside the five-value enum. -/
def recOutside : AttendanceRecord := { recA with status := "Pending" }

/-! ## Claim theorems -/

/-- C1: for a known course code and a date with no existing session for
(courseCode, normalized date), `createSession` inserts exactly one new
session with status `active` and id `nextSessionId`, appends exactly one
`Belum Absen` attendance record per student of the roster (in roster order,
all under the new session id), and returns the new session id together with
the roster size as the student count. -/
theorem createSession_success (db : Store) (cc : String) (date now : Nat)
    (course : Course)
    (hc : db.courses.find? (fun c => c.courseCode == cc) = some course)
    (hs : db.sessions.find?
        (fun s => s.courseCode == cc && s.date == normalizeDate date) = none) :
    ∃ sess : Session,
      createSession db cc date now =
        (.created db.nextSessionId db.students.length,
         { db with
             sessions := db.sessions ++ [sess]
             attendances := db.attendances ++
               seedRecords db.nextSessionId cc course.courseName now
                 db.nextRecordId db.students
             nextSessionId := db.nextSessionId + 1
             nextRecordId := db.nextRecordId + db.students.length }) ∧
      sess.status = "active" ∧
      sess.id = db.nextSessionId ∧
      sess.courseCode = cc ∧
      sess.date = normalizeDate date ∧
      (seedRecords db.nextSessionId cc course.courseName now
          db.nextRecordId db.students).map (fun r => r.npm) =
        db.students.map (fun stu => stu.npm) ∧
      ∀ r ∈ seedRecords db.nextSessionId cc course.courseName now
          db.nextRecordId db.students,
        r.status = "Belum Absen" ∧ r.sessionId = db.nextSessionId := by
  refine ⟨{ id := db.nextSessionId
            courseCode := cc
            courseName := course.courseName
            lecturerName := course.lecturerName
            date := normalizeDate date
            createdAt := now
            status := "active"
            closedAt := none },
          ?_, rfl, rfl, rfl, rfl,
          seedRecords_map_npm _ _ _ _ _ _,
          seedRecords_fields _ _ _ _ _ _⟩
  simp [createSession, hc, hs]

/-- Witness for C1: on the two-student demo store, creating a session for
`CS101` answers `created` with the fresh session id and student count 2. -/
theorem createSession_success_witness :
    (createSession demoStore "CS101" 5 7).1 = .created 1 2 := by
  obtain ⟨sess, h, -⟩ := createSession_success demoStore "CS101" 5 7 course1 rfl rfl
  rw [h]
  rfl

/-- C4: when a session for (courseCode, normalized date) already exists and
the course is known, `createSession` answers the duplicate-session response:
HTTP 200 with `success: false` (not an error status), carrying the existing
session id, and the store is returned unchanged — no session and no
attendance record is inserted. -/
theorem createSession_conflict (db : Store) (cc : String) (date now : Nat)
    (course : Course) (s0 : Session)
    (hc : db.courses.find? (fun c => c.courseCode == cc) = some course)
    (hs : db.sessions.find?
        (fun s => s.courseCode == cc && s.date == normalizeDate date) = some s0) :
    createSession db cc date now = (.conflict s0.id, db) ∧
    (createSession db cc date now).1.success = false ∧
    (createSession db cc date now).1.httpStatus = 200 := by
  have h : createSession db cc date now = (.conflict s0.id, db) := by
    simp [createSession, hc, hs]
  exact ⟨h, by rw [h]; rfl, by rw [h]; rfl⟩

/-- Witness for C4: on the store that already holds session 1 for `CS101`
on day 0, creating it again yields the conflict response and the unchanged
store. -/
theorem createSession_conflict_witness :
    createSession conflictStore "CS101" 5 9 = (.conflict 1, conflictStore) ∧
    (createSession conflictStore "CS101" 5 9).1.success = false := by
  have h := createSession_conflict conflictStore "CS101" 5 9 course1 sess1
    rfl (by decide)
  exact ⟨h.1, h.2.1⟩

theorem closeRecord_eq_update (sid now : Nat) (r : AttendanceRecord)
    (h1 : r.sessionId = sid) (h2 : r.status = "Belum Absen") :
    closeRecord sid now r = { r with status := "Alpha", updatedAt := now } := by
  have hcond : (r.sessionId == sid && r.status == "Belum Absen") = true := by
    simp [h1, h2]
  simp [closeRecord, hcond]

theorem closeRecord_eq_self (sid now : Nat) (r : AttendanceRecord)
    (h : ¬(r.sessionId = sid ∧ r.status = "Belum Absen")) :
    closeRecord sid now r = r := by
  have hcond : (r.sessionId == sid && r.status == "Belum Absen") = false := by
    rcases not_and_or.mp h with h1 | h1 <;> simp [h1]
  simp [closeRecord, hcond]

theorem forall₂_map_self {α : Type} (f : α → α) (R : α → α → Prop)
    (l : List α) (h : ∀ a ∈ l, R a (f a)) : List.Forall₂ R l (l.map f) := by
  induction l with
  | nil => exact List.Forall₂.nil
  | cons x xs ih =>
    exact List.Forall₂.cons (h x (List.mem_cons_self x xs))
      (ih fun a ha => h a (List.mem_cons_of_mem x ha))

/-- C2: closing a session rewrites, record by record, exactly the session's
`Belum Absen` attendance records to `Alpha` (stamping `updatedAt`), and
returns every other record — different status or different session —
entirely unchanged. -/
theorem closeSession_frame (db : Store) (sid now : Nat) :
    List.Forall₂ (fun r r2 =>
        (r.sessionId = sid ∧ r.status = "Belum Absen" →
          r2 = { r with status := "Alpha", updatedAt := now }) ∧
        (¬(r.sessionId = sid ∧ r.status = "Belum Absen") → r2 = r))
      db.attendances (closeSession db sid now).2.attendances := by
  have hmap : (closeSession db sid now).2.attendances =
      db.attendances.map (closeRecord sid now) := rfl
  rw [hmap]
  apply forall₂_map_self
  intro r hr
  constructor
  · intro h
    exact closeRecord_eq_update sid now r h.1 h.2
  · intro h
    exact closeRecord_eq_self sid now r h

/-- C7: re-closing a session is accepted (the handler answers
`success: true` unconditionally) and changes no attendance record: every
record of the session is already `Alpha` or carries a status other than
`Belum Absen`, so the second bulk update is a no-op. -/
theorem closeSession_idempotent (db : Store) (sid now now2 : Nat) :
    (closeSession (closeSession db sid now).2 sid now2).1 = true ∧
    (closeSession (closeSession db sid now).2 sid now2).2.attendances =
      (closeSession db sid now).2.attendances := by
  refine ⟨rfl, ?_⟩
  show (db.attendances.map (closeRecord sid now)).map (closeRecord sid now2) =
    db.attendances.map (closeRecord sid now)
  rw [List.map_map]
  apply List.map_congr_left
  intro r hr
  show closeRecord sid now2 (closeRecord sid now r) = closeRecord sid now r
  by_cases h : r.sessionId = sid ∧ r.status = "Belum Absen"
  · rw [closeRecord_eq_update sid now r h.1 h.2]
    apply closeRecord_eq_self
    intro hc
    exact absurd hc.2 (by simp)
  · rw [closeRecord_eq_self sid now r h]
    exact closeRecord_eq_self sid now2 r h

/-- C10: closing a session id that matches no session and owns no
attendance record is not rejected: the handler answers `success: true` and
the store comes back entirely unchanged. -/
theorem closeSession_unknown (db : Store) (sid now : Nat)
    (hs : ∀ s ∈ db.sessions, s.id ≠ sid)
    (ha : ∀ r ∈ db.attendances, r.sessionId ≠ sid) :
    closeSession db sid now = (true, db) := by
  have h1 : db.attendances.map (closeRecord sid now) = db.attendances := by
    have := List.map_congr_left (l := db.attendances)
      (f := closeRecord sid now) (g := id)
      (fun r hr => closeRecord_eq_self sid now r (fun hc => ha r hr hc.1))
    rw [this, List.map_id]
  have h2 : updateFirst (fun s => s.id == sid)
      (fun s => { s with status := "closed", closedAt := some now })
      db.sessions = db.sessions := by
    apply updateFirst_of_forall_not
    intro s hsm
    simp [hs s hsm]
  show (true, { db with
      sessions := updateFirst (fun s => s.id == sid)
        (fun s => { s with status := "closed", closedAt := some now }) db.sessions
      attendances := db.attendances.map (closeRecord sid now) }) = (true, db)
  rw [h1, h2]

/-- Witness for C10: closing the unused session id 99 on the seeded store
answers success and leaves the store as it was. -/
theorem closeSession_unknown_witness :
    closeSession recStore 99 7 = (true, recStore) :=
  closeSession_unknown recStore 99 7 (by decide) (by decide)

/-- Counterexample to C3 as stated: `sessionStats` on a single record whose
status lies outside the five-value enum counts it in `total` but in none of
the five buckets, so the identity fails. -/
theorem sessionStats_total_counterexample :
    ¬((sessionStats [recOutside]).total =
      (sessionStats [recOutside]).hadir + (sessionStats [recOutside]).izin +
        (sessionStats [recOutside]).sakit + (sessionStats [recOutside]).alpha +
          (sessionStats [recOutside]).belumAbsen) := by
  decide

/-- C3 amended: on every record set whose statuses all lie in the
five-value enum — which covers every record this system itself ever writes —
the statistics satisfy total = hadir + izin + sakit + alpha + belumAbsen. -/
theorem sessionStats_total_amended (records : List AttendanceRecord)
    (h : ∀ r ∈ records, r.status ∈ validStatuses) :
    (sessionStats records).total =
      (sessionStats records).hadir + (sessionStats records).izin +
        (sessionStats records).sakit + (sessionStats records).alpha +
          (sessionStats records).belumAbsen := by
  simp only [sessionStats]
  induction records with
  | nil => rfl
  | cons r rest ih =>
    have hr := h r (List.mem_cons_self r rest)
    have ih2 := ih fun x hx => h x (List.mem_cons_of_mem r hx)
    simp only [validStatuses, List.mem_cons, List.mem_singleton,
      List.not_mem_nil, or_false] at hr
    rcases hr with h1 | h1 | h1 | h1 | h1 <;>
      simp only [List.length_cons, List.filter_cons, h1] <;> simp <;> omega

/-- Witness for the amended C3 at a concrete two-record set:
2 = 1 + 0 + 0 + 0 + 1. -/
theorem sessionStats_total_amended_witness :
    (sessionStats [recA, recB]).total =
      (sessionStats [recA, recB]).hadir + (sessionStats [recA, recB]).izin +
        (sessionStats [recA, recB]).sakit + (sessionStats [recA, recB]).alpha +
          (sessionStats [recA, recB]).belumAbsen :=
  sessionStats_total_amended [recA, recB] (by decide)

theorem applyStatusUpdate_id (status : String) (notes : Option String)
    (now : Nat) (r : AttendanceRecord) :
    (applyStatusUpdate status notes now r).id = r.id := by
  unfold applyStatusUpdate
  cases notes <;> dsimp only <;> repeat' first | rfl | split

theorem applyStatusUpdate_status (status : String) (notes : Option String)
    (now : Nat) (r : AttendanceRecord) :
    (applyStatusUpdate status notes now r).status = status := by
  unfold applyStatusUpdate
  cases notes <;> dsimp only <;> repeat' first | rfl | split

theorem applyStatusUpdate_attachment_cleared (status : String)
    (notes : Option String) (now : Nat) (r : AttendanceRecord)
    (h1 : status ≠ "Izin") (h2 : status ≠ "Sakit") :
    (applyStatusUpdate status notes now r).attachmentPath = none := by
  unfold applyStatusUpdate
  dsimp only
  split
  · next hcond =>
    exfalso
    rcases Bool.or_eq_true_iff.mp hcond with hc | hc
    · exact h1 (by simpa using hc)
    · exact h2 (by simpa using hc)
  · rfl

theorem applyStatusUpdate_attachment_kept (status : String)
    (notes : Option String) (now : Nat) (r : AttendanceRecord)
    (h : status = "Izin" ∨ status = "Sakit") :
    (applyStatusUpdate status notes now r).attachmentPath = r.attachmentPath := by
  unfold applyStatusUpdate
  dsimp only
  split
  · cases notes with
    | none => rfl
    | some s => dsimp only; split <;> rfl
  · next hcond =>
    exfalso
    rcases h with h | h <;> subst h <;> simp at hcond

/-- C5: a manual status update to a valid status that is neither `Izin` nor
`Sakit` clears the record's attachment path, while an update to `Izin` or
`Sakit` leaves the stored attachment path unchanged; in either case the
record returned and stored is the matched record with the update applied. -/
theorem updateStatus_attachment (db : Store) (rid : Nat) (status : String)
    (notes : Option String) (now : Nat) (r0 : AttendanceRecord)
    (hv : validStatuses.contains status = true)
    (hm : db.attendances.find? (fun r => r.id == rid) = some r0) :
    (updateStatusManually db rid status notes now).1 =
      .ok (applyStatusUpdate status notes now r0) ∧
    (updateStatusManually db rid status notes now).2.attendances.find?
        (fun r => r.id == rid) = some (applyStatusUpdate status notes now r0) ∧
    ((status ≠ "Izin" ∧ status ≠ "Sakit") →
      (applyStatusUpdate status notes now r0).attachmentPath = none) ∧
    ((status = "Izin" ∨ status = "Sakit") →
      (applyStatusUpdate status notes now r0).attachmentPath =
        r0.attachmentPath) := by
  have hpres : ∀ b : AttendanceRecord, (b.id == rid) = true →
      ((applyStatusUpdate status notes now b).id == rid) = true := by
    intro b hb
    rw [applyStatusUpdate_id]
    exact hb
  have hfind := find?_updateFirst _ (applyStatusUpdate status notes now) _ _ hpres hm
  have hany := any_of_find?_eq_some _ _ _ hm
  refine ⟨?_, ?_,
    fun h => applyStatusUpdate_attachment_cleared status notes now r0 h.1 h.2,
    fun h => applyStatusUpdate_attachment_kept status notes now r0 h⟩
  · simp only [updateStatusManually, hv, if_true, hany, hfind]
  · simp only [updateStatusManually, hv, if_true, hany, hfind]

/-- Witness for C5: updating record 1 (which carries an attachment) to
`Hadir` returns it with the attachment cleared. -/
theorem updateStatus_attachment_witness :
    (updateStatusManually recStore 1 "Hadir" none 99).1 =
      .ok (applyStatusUpdate "Hadir" none 99 recA) ∧
    (applyStatusUpdate "Hadir" none 99 recA).attachmentPath = none := by
  have h := updateStatus_attachment recStore 1 "Hadir" none 99 recA
    (by decide) (by decide)
  exact ⟨h.1, h.2.2.1 (by decide)⟩

/-- C9: the manual status update answers `invalidArgument` (HTTP 400)
exactly when the supplied status is outside the five-value enum; with a
valid status and a record id matching no attendance record it answers
`notFound` (HTTP 404); and on either failure the store is unchanged.
(When the status is invalid the enum check fires first, so an unknown id
then still yields `invalidArgument`, not `notFound`.) -/
theorem updateStatus_errors (db : Store) (rid : Nat) (status : String)
    (notes : Option String) (now : Nat) :
    ((updateStatusManually db rid status notes now).1 = .invalidArgument ↔
      validStatuses.contains status = false) ∧
    (validStatuses.contains status = true →
      (∀ r ∈ db.attendances, (r.id == rid) = false) →
      (updateStatusManually db rid status notes now).1 = .notFound) ∧
    (((updateStatusManually db rid status notes now).1 = .invalidArgument ∨
      (updateStatusManually db rid status notes now).1 = .notFound) →
      (updateStatusManually db rid status notes now).2 = db) := by
  by_cases hv : validStatuses.contains status = true
  · by_cases hany : db.attendances.any (fun r => r.id == rid) = true
    · obtain ⟨a, ha⟩ := Option.isSome_iff_exists.mp (List.find?_isSome.mpr
        (List.any_eq_true.mp hany))
      have hpres : ∀ b : AttendanceRecord, (b.id == rid) = true →
          ((applyStatusUpdate status notes now b).id == rid) = true := by
        intro b hb
        rw [applyStatusUpdate_id]
        exact hb
      have hfind := find?_updateFirst _ (applyStatusUpdate status notes now) _ _ hpres ha
      have hres : (updateStatusManually db rid status notes now).1 =
          .ok (applyStatusUpdate status notes now a) := by
        simp only [updateStatusManually, hv, if_true, hany, hfind]
      refine ⟨?_, ?_, ?_⟩
      · constructor
        · intro hbad
          simp [hres] at hbad
        · intro hbad
          rw [hv] at hbad
          simp at hbad
      · intro _ hall
        have := hall a (List.mem_of_find?_eq_some ha)
        rw [List.find?_some ha] at this
        cases this
      · intro hor
        rcases hor with hbad | hbad <;> simp [hres] at hbad
    · have hany2 : db.attendances.any (fun r => r.id == rid) = false := by
        simpa using hany
      have hall : ∀ r ∈ db.attendances, (r.id == rid) = false := by
        intro r hr
        by_contra hc
        exact hany (List.any_eq_true.mpr ⟨r, hr, by simpa using hc⟩)
      have hid := updateFirst_of_forall_not (fun r : AttendanceRecord => r.id == rid)
        (applyStatusUpdate status notes now) db.attendances hall
      have hres : updateStatusManually db rid status notes now = (.notFound, db) := by
        simp only [updateStatusManually, hv, if_true, hany2,
          Bool.false_eq_true, if_false, hid]
      refine ⟨?_, fun _ _ => ?_, fun _ => ?_⟩
      · constructor
        · intro hbad
          rw [hres] at hbad
          simp at hbad
        · intro hbad
          rw [hv] at hbad
          simp at hbad
      · rw [hres]
      · rw [hres]
  · have hv2 : validStatuses.contains status = false := by simpa using hv
    have hres : updateStatusManually db rid status notes now =
        (.invalidArgument, db) := by
      simp only [updateStatusManually, hv2, Bool.false_eq_true, if_false]
    refine ⟨?_, fun hcontra _ => ?_, fun _ => ?_⟩
    · constructor
      · intro _
        exact hv2
      · intro _
        rw [hres]
    · rw [hcontra] at hv2
      cases hv2
    · rw [hres]

/-- Witness for C9: on the seeded store, an unknown record id with a valid
status yields `notFound`, and an out-of-enum status yields
`invalidArgument`. -/
theorem updateStatus_errors_witness :
    (updateStatusManually recStore 77 "Hadir" none 7).1 = .notFound ∧
    (updateStatusManually recStore 1 "Menghilang" none 7).1 = .invalidArgument := by
  constructor
  · exact (updateStatus_errors recStore 77 "Hadir" none 7).2.1 (by decide) (by decide)
  · exact ((updateStatus_errors recStore 1 "Menghilang" none 7).1).mpr (by decide)

/-- C8: recognition-driven marking answers `notFound` (HTTP 404, store
unchanged) when no attendance record matches (sessionId, npm); otherwise —
including when the matched record is already `Hadir` — it overwrites the
matched record with status `Hadir`, checkInTime = now, the supplied
confidence as-is, recognitionMethod = "Face Recognition" and
updatedAt = now, returning the updated record as stored. -/
theorem markPresent_spec (db : Store) (sid : Nat) (npm : String)
    (conf : Option Int) (now : Nat) :
    ((∀ r ∈ db.attendances, (r.sessionId == sid && r.npm == npm) = false) →
      markPresent db sid npm conf now = (.notFound, db)) ∧
    (∀ r0, db.attendances.find?
        (fun r => r.sessionId == sid && r.npm == npm) = some r0 →
      (markPresent db sid npm conf now).1 = .ok (markPresentUpdate conf now r0) ∧
      (markPresent db sid npm conf now).2.attendances.find?
          (fun r => r.sessionId == sid && r.npm == npm) =
        some (markPresentUpdate conf now r0)) := by
  constructor
  · intro hall
    have hany : db.attendances.any
        (fun r => r.sessionId == sid && r.npm == npm) = false := by
      rw [← Bool.not_eq_true]
      intro hc
      obtain ⟨r, hr, hpr⟩ := List.any_eq_true.mp hc
      rw [hall r hr] at hpr
      cases hpr
    have hid := updateFirst_of_forall_not
      (fun r : AttendanceRecord => r.sessionId == sid && r.npm == npm)
      (markPresentUpdate conf now) db.attendances hall
    simp only [markPresent, hany, Bool.false_eq_true, if_false, hid]
  · intro r0 hm
    have hpres : ∀ b : AttendanceRecord,
        (b.sessionId == sid && b.npm == npm) = true →
        ((markPresentUpdate conf now b).sessionId == sid &&
          (markPresentUpdate conf now b).npm == npm) = true :=
      fun b hb => hb
    have hfind := find?_updateFirst _ (markPresentUpdate conf now) _ _ hpres hm
    have hany := any_of_find?_eq_some _ _ _ hm
    constructor
    · simp only [markPresent, hany, if_true, hfind]
    · simp only [markPresent, hany, if_true, hfind]

/-- Witness for C8: marking npm "101" in session 1 overwrites record 1,
and an unknown (sessionId, npm) pair is rejected with the store intact. -/
theorem markPresent_spec_witness :
    (markPresent recStore 1 "101" (some 88) 50).1 =
      .ok (markPresentUpdate (some 88) 50 recA) ∧
    markPresent recStore 2 "101" none 50 = (.notFound, recStore) := by
  constructor
  · exact ((markPresent_spec recStore 1 "101" (some 88) 50).2 recA (by decide)).1
  · exact (markPresent_spec recStore 2 "101" none 50).1 (by decide)

/-- Counterexample to C6 as stated: on a one-student store holding a `Hadir`
record whose check-in timestamp lies after tomorrow's midnight (86400001,
with "now" at 10:00 of day 0), the code still counts it — its filter has no
upper bound — so it reports a 100% rate, while both day windows offered by
the spec ([midnight, now) and [midnight, midnight-tomorrow)) count nobody
and would give round(0/1*100) = 0. -/
theorem systemStats_window_counterexample :
    (systemStats cxStore 36000000).attendanceRate = 100 ∧
    specPresentToday_upToNow cxStore 36000000 = 0 ∧
    specPresentToday_fullDay cxStore 36000000 = 0 ∧
    cxStore.students.length = 1 ∧
    jsRound (((0 : Nat) : ℚ) / ((1 : Nat) : ℚ) * 100) = 0 := by
  refine ⟨?_, by decide, by decide, rfl, ?_⟩
  · have h1 : (systemStats cxStore 36000000).attendanceRate =
        jsRound (((1 : Nat) : ℚ) / ((1 : Nat) : ℚ) * 100) := rfl
    rw [h1, jsRound]
    norm_num
  · rw [jsRound]
    norm_num

/-- C6 amended: `attendanceRate` is round(presentToday/totalStudents × 100)
and 0 when the roster is empty (no division-by-zero fault), but
`presentToday` counts distinct student ids with status `Hadir` and
checkInTime in the unbounded window [midnight-today, ∞) — at or after
today's midnight, with no upper bound — not in either bounded day window
named by the spec. -/
theorem systemStats_amended (db : Store) (now : Nat) :
    (systemStats db now).presentToday = specPresentToday_fromMidnight db now ∧
    (systemStats db now).totalStudents = db.students.length ∧
    (db.students.length = 0 → (systemStats db now).attendanceRate = 0) ∧
    (0 < db.students.length →
      (systemStats db now).attendanceRate =
        jsRound ((specPresentToday_fromMidnight db now : ℚ) /
          (db.students.length : ℚ) * 100)) := by
  have hp : (presentTodayList db now).length =
      specPresentToday_fromMidnight db now := by
    rw [specPresentToday_fromMidnight, List.card_toFinset]
    rfl
  refine ⟨hp, rfl, ?_, ?_⟩
  · intro h0
    show (if 0 < db.students.length
        then jsRound (((presentTodayList db now).length : ℚ) /
          (db.students.length : ℚ) * 100)
        else 0) = 0
    rw [if_neg]
    omega
  · intro hpos
    show (if 0 < db.students.length
        then jsRound (((presentTodayList db now).length : ℚ) /
          (db.students.length : ℚ) * 100)
        else 0) = _
    rw [if_pos hpos, hp]

/-- Witness for the amended C6: with an empty roster the rate is 0 rather
than a division-by-zero fault. -/
theorem systemStats_amended_witness :
    (systemStats emptyStore 0).attendanceRate = 0 :=
  (systemStats_amended emptyStore 0).2.2.1 rfl
